import Mathlib

/-!
Shallow embedding of the streaming-vs-theatrical analytics pipeline
(scripts/collect_theatrical_data.py, scripts/add_streaming_data.py).

Python dictionaries whose keys may be absent are embedded as structures with
Option fields; pandas numeric columns (budget, revenue, roi, ...) are embedded
as rationals (ℚ); Python string containment (needle in hay) is embedded as the
executable substring test pyIn below.  Network calls are embedded as oracles:
a function from the request's parameters to Option of the decoded response,
with none standing for a requests.exceptions.RequestException.
-/

namespace StreamingAnalytics

/-- Boolean test that the first character list is an initial segment of the
second; helper for the substring test below. -/
def strStartsWith : List Char → List Char → Bool
  | [], _ => true
  | _ :: _, [] => false
  | a :: as, b :: bs => a == b && strStartsWith as bs

/-- Boolean test that the first character list occurs contiguously inside the
second, at any position. -/
def strHasSub (needle : List Char) : List Char → Bool
  | [] => needle.isEmpty
  | b :: bs => strStartsWith needle (b :: bs) || strHasSub needle bs

/-- Embedding of the Python expression needle in hay on strings:
case-sensitive contiguous-substring containment. -/
def pyIn (needle hay : String) : Bool :=
  strHasSub needle.toList hay.toList

/-- Embedding of the provider payload us_providers handed to parse_providers
(add_streaming_data.py line 51: data.get('results', \x7b\x7d).get('US', \x7b\x7d)).
Each of the three keys 'flatrate', 'rent', 'buy' may be absent (none).
The code only ever reads p['provider_name'] from a flatrate entry
(line 80), so a flatrate entry is embedded by its provider_name string;
the rent/buy values are never read, only the keys' presence (lines 92-93),
so their entries are likewise embedded by provider_name strings. -/
structure ProvidersData where
  flatrate : Option (List String)
  rent : Option (List String)
  buy : Option (List String)
deriving DecidableEq

/-- Embedding of the empty dictionary \x7b\x7d: no keys present. -/
def emptyProviders : ProvidersData :=
  { flatrate := none, rent := none, buy := none }

/-- Embedding of the dictionary built by StreamingEnricher.parse_providers
(add_streaming_data.py lines 64-75). -/
structure ParsedProviders where
  available_on_streaming : Bool
  streaming_platforms : List String
  available_to_rent : Bool
  available_to_buy : Bool
  on_netflix : Bool
  on_prime : Bool
  on_disney : Bool
  on_hulu : Bool
  on_hbo : Bool
  total_platforms : Nat
deriving DecidableEq

/-- Embedding of StreamingEnricher.parse_providers
(add_streaming_data.py lines 59-95): initialise all fields false/empty/0;
if the 'flatrate' key is present, mark streaming availability, record the
platform names and their count, and set the five brand flags by
case-sensitive substring matching; finally set rent/buy from key presence. -/
def parse_providers (providers_data : ProvidersData) : ParsedProviders :=
  let parsed : ParsedProviders :=
    { available_on_streaming := false
      streaming_platforms := []
      available_to_rent := false
      available_to_buy := false
      on_netflix := false
      on_prime := false
      on_disney := false
      on_hulu := false
      on_hbo := false
      total_platforms := 0 }
  let parsed :=
    match providers_data.flatrate with
    | none => parsed
    | some flat =>
      let platforms := flat
      { parsed with
        available_on_streaming := true
        streaming_platforms := platforms
        total_platforms := platforms.length
        on_netflix := platforms.any (fun p => pyIn "Netflix" p)
        on_prime := platforms.any (fun p => pyIn "Prime" p || pyIn "Amazon" p)
        on_disney := platforms.any (fun p => pyIn "Disney" p)
        on_hulu := platforms.any (fun p => pyIn "Hulu" p)
        on_hbo := platforms.any (fun p => pyIn "HBO" p || pyIn "Max" p) }
  { parsed with
    available_to_rent := providers_data.rent.isSome
    available_to_buy := providers_data.buy.isSome }

/-- Embedding of one row of the Collector's output table
theatrical_data_raw.csv as read back by the Enricher.  Besides the fields
the Enricher reads (movie_id, revenue, budget), representative pass-through
columns (title, primary_genre, roi, release_year) are kept so that facts
about which fields the classification depends on are not vacuous; the
remaining collector columns are carried unchanged in exactly the same way. -/
structure CollectorRow where
  movie_id : Nat
  title : Option String
  revenue : ℚ
  budget : ℚ
  primary_genre : Option String
  roi : ℚ
  release_year : Option Nat
deriving DecidableEq

/-- Embedding of a row of the Enricher's dataframe after the provider columns
of add_streaming_data.py lines 136-148 have been assigned
(release_strategy is still unset, none, until the final apply). -/
structure EnrichedRow extends CollectorRow where
  available_on_streaming : Bool
  streaming_platforms : List String
  available_to_rent : Bool
  available_to_buy : Bool
  on_netflix : Bool
  on_prime : Bool
  on_disney : Bool
  on_hulu : Bool
  on_hbo : Bool
  total_platforms : Nat
  release_strategy : Option String
deriving DecidableEq

/-- Embedding of StreamingEnricher.categorize_release_strategy
(add_streaming_data.py lines 97-124), reading revenue, budget and
available_on_streaming from the row. -/
def categorize_release_strategy (row : EnrichedRow) : String :=
  let revenue := row.revenue
  let budget := row.budget
  let on_streaming := row.available_on_streaming
  if 50000000 < revenue then
    if on_streaming then "Theatrical → Streaming" else "Theatrical Only"
  else if revenue < 10000000 ∧ 0 < budget then
    if on_streaming then "Streaming-First" else "Limited Theatrical"
  else
    if on_streaming then "Theatrical → Streaming" else "Theatrical Only"

/-- The release-strategy classification as the specification words it, as a
function of the triple (revenue, budget, streaming-available): the high band
above $50M, the low band under $10M with positive budget, and the default
medium band otherwise. -/
def categorize_release_strategy_spec (revenue budget : ℚ) (streaming : Bool) : String :=
  if 50000000 < revenue then
    if streaming then "Theatrical → Streaming" else "Theatrical Only"
  else if revenue < 10000000 ∧ 0 < budget then
    if streaming then "Streaming-First" else "Limited Theatrical"
  else
    if streaming then "Theatrical → Streaming" else "Theatrical Only"

/-- Embedding of one entry of the 'genres' list of a movie-detail response.
The collector indexes g['id'] and g['name'] directly
(collect_theatrical_data.py lines 147-148), so both keys are present. -/
structure Genre where
  id : Nat
  name : String
deriving DecidableEq

/-- Embedding of the decoded JSON body of a movie-detail response
(collect_theatrical_data.py get_movie_details): every key the collector
reads, each possibly absent (none).  Numeric fields are rationals. -/
structure Details where
  title : Option String
  release_date : Option String
  budget : Option ℚ
  revenue : Option ℚ
  runtime : Option ℚ
  vote_average : Option ℚ
  vote_count : Option ℚ
  popularity : Option ℚ
  original_language : Option String
  genres : Option (List Genre)
  production_companies : Option (List String)
  production_countries : Option (List String)
  status : Option String
  tagline : Option String
deriving DecidableEq

/-- Embedding of the movie_data dictionary built in
TMDbCollector.collect_year_data (collect_theatrical_data.py lines 135-156). -/
structure MovieData where
  movie_id : Nat
  title : Option String
  release_date : Option String
  budget : ℚ
  revenue : ℚ
  runtime : Option ℚ
  vote_average : Option ℚ
  vote_count : Option ℚ
  popularity : Option ℚ
  original_language : Option String
  genre_ids : List Nat
  genres : List String
  primary_genre : Option String
  production_companies : List String
  production_countries : List String
  status : Option String
  tagline : Option String
deriving DecidableEq

/-- Embedding of the construction of movie_data from a detail response
(collect_theatrical_data.py lines 135-156): budget and revenue default to 0
when absent; primary_genre is the first genre's name when the genres list is
present and non-empty, and None otherwise (line 149); the top three
production companies are kept. -/
def extractMovie (movie_id : Nat) (details : Details) : MovieData :=
  { movie_id := movie_id
    title := details.title
    release_date := details.release_date
    budget := details.budget.getD 0
    revenue := details.revenue.getD 0
    runtime := details.runtime
    vote_average := details.vote_average
    vote_count := details.vote_count
    popularity := details.popularity
    original_language := details.original_language
    genre_ids := (details.genres.getD []).map Genre.id
    genres := (details.genres.getD []).map Genre.name
    primary_genre :=
      match details.genres with
      | none => none
      | some [] => none
      | some (g :: _) => some g.name
    production_companies := (details.production_companies.getD []).take 3
    production_countries := details.production_countries.getD []
    status := details.status
    tagline := details.tagline }

/-- Embedding of a decoded discover-endpoint response carrying a 'results'
key (collect_theatrical_data.py lines 121-125, 165): the page's movie ids and
the reported page count.  A response in which 'total_pages' is absent is
embedded with total_pages = 0, exactly the default the code supplies at
line 165. -/
structure DiscoverResponse where
  results : List Nat
  total_pages : Nat
deriving DecidableEq

/-- Network oracle for the Collector.  Each function returns none when the
call raises requests.exceptions.RequestException — for discover, none also
covers a decoded body lacking the 'results' key, which line 121 treats
identically to a failed call (both break the page loop). -/
structure Api where
  genres : Option (List Genre)
  discover : Nat → Nat → Option DiscoverResponse
  details : Nat → Option Details

/-- Network requests issued by the two scripts, identified by endpoint and
parameters. -/
inductive Call where
  | genres : Call
  | discover (year page : Nat) : Call
  | details (movie_id : Nat) : Call
  | providers (movie_id : Nat) : Call
deriving DecidableEq

/-- Observable control-flow events of a script run: a network request, or one
of the aborts the specification's error taxonomy predicts.
abortMissingCredential is the fatal credential-precondition abort the
specification describes; no statement in either main() can emit it, which the
theorems below record.  abortMissingInput is the Enricher's early return when
its input file is absent (add_streaming_data.py lines 189-192). -/
inductive Event where
  | net (c : Call) : Event
  | abortMissingCredential : Event
  | abortMissingInput : Event
deriving DecidableEq

/-- Embedding of the inner movie loop of TMDbCollector.collect_year_data
(collect_theatrical_data.py lines 129-158): one get_movie_details call per
listed movie id, in order; a failed call (none) contributes no row and the
loop proceeds to the next movie.  Returns the calls issued and the rows
collected. -/
def processMovies (api : Api) : List Nat → List Call × List MovieData
  | [] => ([], [])
  | movie_id :: rest =>
    let tail := processMovies api rest
    match api.details movie_id with
    | none => (Call.details movie_id :: tail.1, tail.2)
    | some details => (Call.details movie_id :: tail.1, extractMovie movie_id details :: tail.2)

/-- Embedding of the page loop of TMDbCollector.collect_year_data
(collect_theatrical_data.py lines 115-166), from the given page number with
the given number of loop iterations remaining.  A failed (or results-less)
discover response breaks the loop (line 123); after processing a page the
loop also breaks when page ≥ total_pages (line 165). -/
def collectPages (api : Api) (year : Nat) : Nat → Nat → List Call × List MovieData
  | _, 0 => ([], [])
  | page, remaining + 1 =>
    match api.discover year page with
    | none => ([Call.discover year page], [])
    | some resp =>
      let pageResult := processMovies api resp.results
      let calls := Call.discover year page :: pageResult.1
      if resp.total_pages ≤ page then (calls, pageResult.2)
      else
        let rest := collectPages api year (page + 1) remaining
        (calls ++ rest.1, pageResult.2 ++ rest.2)

/-- Embedding of TMDbCollector.collect_year_data
(collect_theatrical_data.py lines 104-169): pages 1 .. max_pages. -/
def collect_year_data (api : Api) (year : Nat) (max_pages : Nat) : List Call × List MovieData :=
  collectPages api year 1 max_pages

/-- Embedding of a row of df_filtered after the derived columns are added
(collect_theatrical_data.py lines 219-231): the movie fields plus roi,
profit and release_year. -/
structure FinalRow extends MovieData where
  roi : ℚ
  profit : ℚ
  release_year : Option Nat
deriving DecidableEq

/-- Embedding of the dataframe post-processing of the Collector's main()
(collect_theatrical_data.py lines 212-231): keep the rows with budget > 0 and
revenue > 0, then add roi = (revenue − budget)/budget·100, profit, and the
release year.  pd.to_datetime(release_date).dt.year is embedded by reading
the leading four-digit year of the ISO yyyy-mm-dd date string. -/
def build_table (all_movies : List MovieData) : List FinalRow :=
  let df_filtered := all_movies.filter fun m => decide (0 < m.budget) && decide (0 < m.revenue)
  df_filtered.map fun m =>
    { toMovieData := m
      roi := (m.revenue - m.budget) / m.budget * 100
      profit := m.revenue - m.budget
      release_year := m.release_date.bind fun s => (s.take 4).toNat? }

/-- Value of the years list of the Collector's main()
(collect_theatrical_data.py line 189). -/
def targetYears : List Nat := [2019, 2020, 2021, 2022, 2023, 2024]

/-- Value of max_pages_per_year of the Collector's main()
(collect_theatrical_data.py line 190). -/
def max_pages_per_year : Nat := 5

/-- Embedding of the Collector's main()
(collect_theatrical_data.py lines 172-262).  The credential read from the
environment is passed in (none when TMDB_API_KEY is absent); main() performs
no validation of it — the key is merely interpolated into each request's
parameters — so the event trace does not depend on it: get_genres issues the
first network call unconditionally (line 184), then each year's pages are
collected and the final table is built. -/
def collector_main (apiKey : Option String) (api : Api) : List Event × List FinalRow :=
  let yearCalls := targetYears.flatMap fun y => (collect_year_data api y max_pages_per_year).1
  let all_movies := targetYears.flatMap fun y => (collect_year_data api y max_pages_per_year).2
  ((Call.genres :: yearCalls).map Event.net, build_table all_movies)

/-- Network oracle for the Enricher: the decoded US provider dictionary for a
movie id, or none when the call raises requests.exceptions.RequestException.
A response without a US entry is embedded as some emptyProviders, matching
data.get('results', \x7b\x7d).get('US', \x7b\x7d) at line 51. -/
structure ProviderApi where
  watchProviders : Nat → Option ProvidersData

/-- Embedding of StreamingEnricher.get_watch_providers
(add_streaming_data.py lines 35-57): on a request exception the error is
caught and the empty dictionary is returned. -/
def get_watch_providers (api : ProviderApi) (movie_id : Nat) : ProvidersData :=
  match api.watchProviders movie_id with
  | none => emptyProviders
  | some us_providers => us_providers

/-- Embedding of StreamingEnricher.enrich_dataset
(add_streaming_data.py lines 126-176): first every row is given its parsed
provider columns (lines 154-169), then release_strategy is assigned by
applying categorize_release_strategy to every row (line 172). -/
def enrich_dataset (api : ProviderApi) (df : List CollectorRow) : List EnrichedRow :=
  let withProviders : List EnrichedRow := df.map fun row =>
    let parsed := parse_providers (get_watch_providers api row.movie_id)
    { toCollectorRow := row
      available_on_streaming := parsed.available_on_streaming
      streaming_platforms := parsed.streaming_platforms
      available_to_rent := parsed.available_to_rent
      available_to_buy := parsed.available_to_buy
      on_netflix := parsed.on_netflix
      on_prime := parsed.on_prime
      on_disney := parsed.on_disney
      on_hulu := parsed.on_hulu
      on_hbo := parsed.on_hbo
      total_platforms := parsed.total_platforms
      release_strategy := none }
  withProviders.map fun row => { row with release_strategy := some (categorize_release_strategy row) }

/-- Embedding of the Enricher's main() (add_streaming_data.py lines 179-251).
The credential is passed in (none when TMDB_API_KEY is absent) but, exactly
as in the Collector, main() never validates it.  The only early return is the
missing-input-file check at lines 189-192, before any network call; when the
file exists, one watch-providers call is issued per row. -/
def enricher_main (apiKey : Option String) (theatrical_file_exists : Bool)
    (df : List CollectorRow) (api : ProviderApi) : List Event × Option (List EnrichedRow) :=
  if theatrical_file_exists then
    ((df.map fun r => Call.providers r.movie_id).map Event.net, some (enrich_dataset api df))
  else
    ([Event.abortMissingInput], none)

/-! Concrete fixtures used by witnesses and counterexamples. -/

/-- A detail response with genres present, no release date, budget 3 and
revenue 12. -/
def detailsGood : Details :=
  { title := some "Movie"
    release_date := none
    budget := some 3
    revenue := some 12
    runtime := none
    vote_average := none
    vote_count := none
    popularity := none
    original_language := some "en"
    genres := some [{ id := 18, name := "Drama" }]
    production_companies := some ["Studio"]
    production_countries := some ["US"]
    status := some "Released"
    tagline := none }

/-- An oracle on which every call fails. -/
def apiDown : Api :=
  { genres := none
    discover := fun _ _ => none
    details := fun _ => none }

/-- A provider oracle on which every call fails. -/
def provDown : ProviderApi :=
  { watchProviders := fun _ => none }

/-- An oracle that serves exactly one one-page year (2019) listing movie 1. -/
def apiOne : Api :=
  { genres := some [{ id := 18, name := "Drama" }]
    discover := fun year page =>
      if year = 2019 ∧ page = 1 then some { results := [1], total_pages := 1 } else none
    details := fun _ => some detailsGood }

/-- The movie record the collector builds for movie 1 from detailsGood. -/
def goodMovie : MovieData := extractMovie 1 detailsGood

/-- The final row the collector's post-processing produces from goodMovie:
roi = (12 − 3)/3 · 100 = 300, profit = 9. -/
def goodRow : FinalRow :=
  { toMovieData := goodMovie, roi := 300, profit := 9, release_year := none }

/-- A collector-output row as the Enricher reads it back. -/
def inputRow : CollectorRow :=
  { movie_id := 7, title := some "Movie", revenue := 12, budget := 3,
    primary_genre := some "Drama", roi := 300, release_year := none }

/-- An enriched row in the high-revenue band, on streaming. -/
def rowA : EnrichedRow :=
  { movie_id := 1, title := some "A", revenue := 60000000, budget := 1000000,
    primary_genre := none, roi := 0, release_year := none,
    available_on_streaming := true, streaming_platforms := ["Netflix"],
    available_to_rent := false, available_to_buy := false,
    on_netflix := true, on_prime := false, on_disney := false,
    on_hulu := false, on_hbo := false, total_platforms := 1,
    release_strategy := none }

/-- A row agreeing with rowA on (revenue, budget, streaming) but differing in
every other mutable field. -/
def rowB : EnrichedRow :=
  { rowA with
    movie_id := 2, title := some "B", primary_genre := some "Drama",
    roi := 5, streaming_platforms := [], on_netflix := false, total_platforms := 0 }

/-! Shared helper lemmas. -/

/-- Characterisation of membership in the collector's final table: every row
comes from a retained movie with positive budget and revenue, with the
derived columns computed from it. -/
theorem build_table_mem (all_movies : List MovieData) (fr : FinalRow)
    (h : fr ∈ build_table all_movies) :
    ∃ m ∈ all_movies, (0 < m.budget ∧ 0 < m.revenue) ∧
      fr = { toMovieData := m
             roi := (m.revenue - m.budget) / m.budget * 100
             profit := m.revenue - m.budget
             release_year := m.release_date.bind fun s => (s.take 4).toNat? } := by
  unfold build_table at h
  simp only [List.mem_map, List.mem_filter, Bool.and_eq_true, decide_eq_true_eq] at h
  obtain ⟨m, ⟨hm, hb, hr⟩, heq⟩ := h
  exact ⟨m, hm, ⟨hb, hr⟩, heq.symm⟩

/-! Theorems settling the claims. -/

/-- C1: categorize_release_strategy computes exactly the classification the
specification describes, as a function of the triple (revenue, budget,
streaming-available): revenue above $50M gives Theatrical → Streaming or
Theatrical Only by streaming availability; revenue under $10M with positive
budget gives Streaming-First or Limited Theatrical; the remaining medium
band (including zero-budget rows under $10M) gives Theatrical → Streaming or
Theatrical Only. -/
theorem categorize_release_strategy_matches_spec (row : EnrichedRow) :
    categorize_release_strategy row =
      categorize_release_strategy_spec row.revenue row.budget row.available_on_streaming := rfl

/-- C4: the release-strategy classification is a pure function of
(revenue, budget, streaming-available) — two rows agreeing on those three
fields receive the same label — and it is total: every rational
revenue/budget combination, with either streaming value, is assigned one of
the four labels. -/
theorem categorize_pure_and_total (r1 r2 : EnrichedRow)
    (hrev : r1.revenue = r2.revenue) (hbud : r1.budget = r2.budget)
    (hstr : r1.available_on_streaming = r2.available_on_streaming) :
    categorize_release_strategy r1 = categorize_release_strategy r2 ∧
      (categorize_release_strategy r1 = "Theatrical → Streaming" ∨
       categorize_release_strategy r1 = "Theatrical Only" ∨
       categorize_release_strategy r1 = "Streaming-First" ∨
       categorize_release_strategy r1 = "Limited Theatrical") := by
  constructor
  · simp only [categorize_release_strategy, hrev, hbud, hstr]
  · simp only [categorize_release_strategy]
    split_ifs <;> simp

/-- Witness for C4 at two concrete rows agreeing on the triple but differing
elsewhere. -/
theorem categorize_pure_and_total_witness :
    categorize_release_strategy rowA = categorize_release_strategy rowB ∧
      (categorize_release_strategy rowA = "Theatrical → Streaming" ∨
       categorize_release_strategy rowA = "Theatrical Only" ∨
       categorize_release_strategy rowA = "Streaming-First" ∨
       categorize_release_strategy rowA = "Limited Theatrical") :=
  categorize_pure_and_total rowA rowB rfl rfl rfl

/-- C7: after parsing a provider payload, on_netflix is true iff some
platform name in the subscription (flatrate) list contains the case-sensitive
substring Netflix, and each of the other four flags is true iff some
subscription platform name contains its literal brand substrings (Prime or
Amazon; Disney; Hulu; HBO or Max). -/
theorem platform_flags_substring_iff (d : ProvidersData) :
    ((parse_providers d).on_netflix = true ↔
      ∃ p ∈ (parse_providers d).streaming_platforms, pyIn "Netflix" p = true) ∧
    ((parse_providers d).on_prime = true ↔
      ∃ p ∈ (parse_providers d).streaming_platforms, (pyIn "Prime" p || pyIn "Amazon" p) = true) ∧
    ((parse_providers d).on_disney = true ↔
      ∃ p ∈ (parse_providers d).streaming_platforms, pyIn "Disney" p = true) ∧
    ((parse_providers d).on_hulu = true ↔
      ∃ p ∈ (parse_providers d).streaming_platforms, pyIn "Hulu" p = true) ∧
    ((parse_providers d).on_hbo = true ↔
      ∃ p ∈ (parse_providers d).streaming_platforms, (pyIn "HBO" p || pyIn "Max" p) = true) := by
  obtain ⟨fl, rent, buy⟩ := d
  cases fl with
  | none => simp [parse_providers]
  | some platforms => simp [parse_providers, List.any_eq_true]

/-- C8: parsing a provider payload containing none of the keys flatrate,
rent, buy returns the record in which every availability and platform flag
is false, the platform list is empty and total_platforms is 0. -/
theorem parse_providers_empty_payload (d : ProvidersData)
    (hf : d.flatrate = none) (hr : d.rent = none) (hb : d.buy = none) :
    parse_providers d =
      { available_on_streaming := false
        streaming_platforms := []
        available_to_rent := false
        available_to_buy := false
        on_netflix := false
        on_prime := false
        on_disney := false
        on_hulu := false
        on_hbo := false
        total_platforms := 0 } := by
  simp [parse_providers, hf, hr, hb]

/-- Witness for C8 at the empty payload. -/
theorem parse_providers_empty_payload_witness :
    parse_providers emptyProviders =
      { available_on_streaming := false
        streaming_platforms := []
        available_to_rent := false
        available_to_buy := false
        on_netflix := false
        on_prime := false
        on_disney := false
        on_hulu := false
        on_hbo := false
        total_platforms := 0 } :=
  parse_providers_empty_payload emptyProviders rfl rfl rfl

/-- C9: extracting a movie record from a detail response whose genres list is
empty or absent yields primary_genre = none rather than an error;
extractMovie is a total function, so extraction succeeds on every such
response. -/
theorem primary_genre_empty_genres_none (movie_id : Nat) (details : Details)
    (h : details.genres = none ∨ details.genres = some []) :
    (extractMovie movie_id details).primary_genre = none := by
  rcases h with h | h <;> simp [extractMovie, h]

/-- Witness for C9 at a concrete detail response with no genres key. -/
theorem primary_genre_empty_genres_none_witness :
    (extractMovie 42 { detailsGood with genres := none }).primary_genre = none :=
  primary_genre_empty_genres_none 42 { detailsGood with genres := none } (Or.inl rfl)

/-- C10: for every provider payload, available_on_streaming is true iff the
flatrate key is present (a flatrate key mapped to an empty list still counts
as present), total_platforms equals the length of streaming_platforms, and
available_to_rent / available_to_buy equal presence of the rent / buy keys,
independently of the flatrate key. -/
theorem parse_providers_invariants (d : ProvidersData) :
    (parse_providers d).available_on_streaming = d.flatrate.isSome ∧
    (parse_providers d).total_platforms = (parse_providers d).streaming_platforms.length ∧
    (parse_providers d).available_to_rent = d.rent.isSome ∧
    (parse_providers d).available_to_buy = d.buy.isSome := by
  obtain ⟨fl, rent, buy⟩ := d
  cases fl <;> simp [parse_providers]

/-- C5: every row of the collector's output table has roi equal to
(revenue − budget) / budget · 100 exactly, under the precondition —
guaranteed by the budget/revenue filter — that budget > 0. -/
theorem roi_formula_exact (all_movies : List MovieData) (fr : FinalRow)
    (h : fr ∈ build_table all_movies) :
    0 < fr.budget ∧ fr.roi = (fr.revenue - fr.budget) / fr.budget * 100 := by
  obtain ⟨m, _, ⟨hb, _⟩, rfl⟩ := build_table_mem all_movies fr h
  exact ⟨hb, rfl⟩

/-- Witness for C5: the table built from goodMovie retains goodRow, whose
roi of 300 equals (12 − 3)/3 · 100. -/
theorem roi_formula_exact_witness :
    0 < goodRow.budget ∧ goodRow.roi = (goodRow.revenue - goodRow.budget) / goodRow.budget * 100 :=
  roi_formula_exact [goodMovie] goodRow
    (by norm_num [build_table, goodMovie, extractMovie, detailsGood, goodRow])

/-- C6: every row retained in the Collector's output table has budget > 0
and revenue > 0; the post-filter processing neither removes nor reintroduces
rows (mapped back to its movie fields, the table is exactly the filtered
list); and a movie whose detail response is missing budget or revenue — so
the field defaulted to 0 — never appears in any built table. -/
theorem retained_rows_budget_revenue_pos (apiKey : Option String) (api : Api)
    (fr : FinalRow) (all_movies : List MovieData) (movie_id : Nat) (details : Details)
    (hmem : fr ∈ (collector_main apiKey api).2)
    (hmiss : details.budget = none ∨ details.revenue = none) :
    (0 < fr.budget ∧ 0 < fr.revenue) ∧
    (build_table all_movies).map FinalRow.toMovieData =
      all_movies.filter (fun m => decide (0 < m.budget) && decide (0 < m.revenue)) ∧
    extractMovie movie_id details ∉ (build_table all_movies).map FinalRow.toMovieData := by
  have hmap : ∀ l : List MovieData,
      (build_table l).map FinalRow.toMovieData =
        l.filter (fun m => decide (0 < m.budget) && decide (0 < m.revenue)) := by
    intro l
    simp only [build_table, List.map_map]
    exact List.map_id'' (fun m => rfl) _
  refine ⟨?_, hmap all_movies, ?_⟩
  · obtain ⟨m, _, ⟨hb, hr⟩, rfl⟩ := build_table_mem _ fr hmem
    exact ⟨hb, hr⟩
  · rw [hmap all_movies, List.mem_filter]
    rintro ⟨-, hpred⟩
    rcases hmiss with h | h <;>
      simp [extractMovie, h] at hpred

/-- Witness for C6: goodRow is retained from apiOne's run with positive
budget and revenue; a detail response with no budget key is dropped from the
table built over the singleton list holding it. -/
theorem retained_rows_budget_revenue_pos_witness :
    (0 < goodRow.budget ∧ 0 < goodRow.revenue) ∧
    (build_table [goodMovie]).map FinalRow.toMovieData =
      [goodMovie].filter (fun m => decide (0 < m.budget) && decide (0 < m.revenue)) ∧
    extractMovie 9 { detailsGood with budget := none } ∉
      (build_table [goodMovie]).map FinalRow.toMovieData :=
  retained_rows_budget_revenue_pos none apiOne goodRow [goodMovie] 9
    { detailsGood with budget := none }
    (by norm_num [collector_main, collect_year_data, collectPages, processMovies, targetYears,
      max_pages_per_year, apiOne, build_table, goodMovie, extractMovie, detailsGood, goodRow])
    (Or.inl rfl)

/-- C2 counterexample: with the credential absent (TMDB_API_KEY read as
none) neither script aborts: the Collector's very first event is the
get_genres network request, the Enricher (whose input file exists) issues
the watch-providers network request for its row, and no credential abort
occurs in either trace — refuting the claim that a missing credential makes
both scripts abort fatally before issuing any network call. -/
theorem missing_credential_not_fatal_cex :
    (collector_main none apiDown).1.head? = some (Event.net Call.genres) ∧
    Event.abortMissingCredential ∉ (collector_main none apiDown).1 ∧
    Event.net (Call.providers 7) ∈ (enricher_main none true [inputRow] provDown).1 ∧
    Event.abortMissingCredential ∉ (enricher_main none true [inputRow] provDown).1 := by
  decide

/-- C2 amended: neither the Collector nor the Enricher validates the
credential; with the credential absent from the environment both proceed —
the Collector's first event is already a network call, the Enricher (when
its input file exists and is non-empty) issues only network calls — and
neither ever aborts over the missing credential. -/
theorem no_credential_check_runs_proceed (api : Api) (papi : ProviderApi)
    (df : List CollectorRow) (hne : df ≠ []) :
    (collector_main none api).1.head? = some (Event.net Call.genres) ∧
    Event.abortMissingCredential ∉ (collector_main none api).1 ∧
    (enricher_main none true df papi).1 ≠ [] ∧
    (∀ e ∈ (enricher_main none true df papi).1, ∃ c, e = Event.net c) := by
  refine ⟨rfl, ?_, ?_, ?_⟩
  · simp [collector_main]
  · simp [enricher_main, hne]
  · intro e he
    simp only [enricher_main, if_true, List.map_map, List.mem_map] at he
    obtain ⟨r, _, rfl⟩ := he
    exact ⟨_, rfl⟩

/-- Witness for the amended C2 at concrete failing oracles and a one-row
input table. -/
theorem no_credential_check_runs_proceed_witness :
    (collector_main none apiDown).1.head? = some (Event.net Call.genres) ∧
    Event.abortMissingCredential ∉ (collector_main none apiDown).1 ∧
    (enricher_main none true [inputRow] provDown).1 ≠ [] ∧
    (∀ e ∈ (enricher_main none true [inputRow] provDown).1, ∃ c, e = Event.net c) :=
  no_credential_check_runs_proceed apiDown provDown [inputRow] (by simp)

/-- An oracle whose page-1 discovery call fails while every later page would
succeed, listing movie 5 out of 99 reported pages. -/
def apiPageOneDown : Api :=
  { genres := none
    discover := fun _ page =>
      if page = 1 then none else some { results := [5], total_pages := 99 }
    details := fun _ => none }

/-- C3 counterexample: under apiPageOneDown the year-2019 discovery call for
page 1 fails while the page-2 call would succeed and list movie 5; the
collector's page loop breaks instead of continuing with the next item — the
page-2 call is never issued and the year yields no movies — refuting the
claim that after any single failed fetch processing continues with the next
item. -/
theorem discovery_failure_skips_remaining_pages_cex :
    apiPageOneDown.discover 2019 2 = some { results := [5], total_pages := 99 } ∧
    Call.discover 2019 2 ∉ (collect_year_data apiPageOneDown 2019 5).1 ∧
    (collect_year_data apiPageOneDown 2019 5).2 = [] := by
  decide

/-- C3 amended: a failed movie-detail call is caught and contributes no row
while the remaining listed movies are still processed, each listed id being
called exactly once (no retry); a failed discovery call is caught but ends
that year's page loop — it produces exactly the one failed call and no rows,
collection continuing with the next year; a failed watch-provider call is
parsed as empty provider data with all flags false, and the Enricher still
processes every row. -/
theorem single_call_failure_handling (api : Api) (papi : ProviderApi)
    (ids : List Nat) (year page fuel movie_id : Nat) (df : List CollectorRow)
    (hdisc : api.discover year page = none)
    (hprov : papi.watchProviders movie_id = none) :
    (processMovies api ids).1 = ids.map Call.details ∧
    (processMovies api ids).2 =
      ids.filterMap (fun i => (api.details i).map (extractMovie i)) ∧
    collectPages api year page (fuel + 1) = ([Call.discover year page], []) ∧
    parse_providers (get_watch_providers papi movie_id) =
      { available_on_streaming := false
        streaming_platforms := []
        available_to_rent := false
        available_to_buy := false
        on_netflix := false
        on_prime := false
        on_disney := false
        on_hulu := false
        on_hbo := false
        total_platforms := 0 } ∧
    (enrich_dataset papi df).length = df.length := by
  refine ⟨?_, ?_, ?_, ?_, ?_⟩
  · induction ids with
    | nil => rfl
    | cons i t ih =>
      simp only [processMovies, List.map_cons]
      cases api.details i <;> simp [ih]
  · induction ids with
    | nil => rfl
    | cons i t ih =>
      simp only [processMovies, List.filterMap_cons]
      cases api.details i <;> simp [ih]
  · simp [collectPages, hdisc]
  · simp [get_watch_providers, hprov, parse_providers, emptyProviders]
  · simp [enrich_dataset]

/-- Witness for the amended C3 at concrete failing oracles: one listed movie
whose detail call fails, a failing page-1 discovery call, a failing provider
call for movie 7, and a one-row enrichment input. -/
theorem single_call_failure_handling_witness :
    (processMovies apiDown [3]).1 = [3].map Call.details ∧
    (processMovies apiDown [3]).2 =
      [3].filterMap (fun i => (apiDown.details i).map (extractMovie i)) ∧
    collectPages apiDown 2019 1 (0 + 1) = ([Call.discover 2019 1], []) ∧
    parse_providers (get_watch_providers provDown 7) =
      { available_on_streaming := false
        streaming_platforms := []
        available_to_rent := false
        available_to_buy := false
        on_netflix := false
        on_prime := false
        on_disney := false
        on_hulu := false
        on_hbo := false
        total_platforms := 0 } ∧
    (enrich_dataset provDown [inputRow]).length = [inputRow].length :=
  single_call_failure_handling apiDown provDown [3] 2019 1 0 7 [inputRow] rfl rfl

end StreamingAnalytics
